import Mathlib

/-!
A shallow embedding of fuddly's probe monitoring core (fuzzfmk/monitor.py):
the ProbeStatus value, the plain ProbeUser worker loop, the
BlockingProbeUser handshake protocol (data-ready / armed / blocking-release /
error-release events), and the Monitor registry and orchestrator.

Conventions of the embedding:
- time is modelled in integer seconds (the source uses datetime/timedelta;
  only signs and comparisons of durations matter for the properties below);
- threading.Event flags are Booleans; a worker's poll loop is a structural
  recursion over a finite trace of the flag values it observes, with external
  signal deliveries given as an explicit environment trace;
- Python exceptions are values of an `Except` type: a raise that would escape
  a modelled function is an `Except.error`.
-/

namespace FuddlyMonitor


/-- Class attribute `ProbeUser.timeout = 10.0` (seconds): the default budget
used by `join`, `wait_until_armed` and `stop_all_probes`. -/
def probeUserTimeout : Int := 10

/-- The Python exceptions the modelled code can raise. -/
inductive PyExc
  | keyError
  | typeError
  | attributeError
  | alreadyExistingProbe
  | runtimeError
deriving DecidableEq

/-! ## ProbeStatus

Source class `ProbeStatus`: `_now` is captured by the constructor
(`datetime.datetime.now()`), `__status` and `__private` are the health code
and the opaque diagnostic payload. -/

/-- The `ProbeStatus` object: creation timestamp `now` (field `_now`), health
code `status` (field `__status`, `None` or an int) and diagnostic payload
`info` (field `__private`, opaque; modelled as an optional string). -/
structure ProbeStatus where
  now : Int
  status : Option Int
  info : Option String
deriving DecidableEq

/-- Method `ProbeStatus.set_status(status)`: overwrites the health code of an
existing instance. Mutation of the Python object is modelled as producing the
updated record. -/
def ProbeStatus.set_status (ps : ProbeStatus) (s : Int) : ProbeStatus :=
  { ps with status := some s }

/-- Method `ProbeStatus.get_status()`. -/
def ProbeStatus.get_status (ps : ProbeStatus) : Option Int :=
  ps.status

/-- Method `ProbeStatus.set_private_info(pv)`: overwrites the diagnostic
payload of an existing instance. -/
def ProbeStatus.set_private_info (ps : ProbeStatus) (pv : Option String) : ProbeStatus :=
  { ps with info := pv }

/-- Method `ProbeStatus.get_private_info()`. -/
def ProbeStatus.get_private_info (ps : ProbeStatus) : Option String :=
  ps.info

/-- Method `ProbeStatus.get_timestamp()`: returns `_now`, which no method of
the class writes after `__init__`. -/
def ProbeStatus.get_timestamp (ps : ProbeStatus) : Int :=
  ps.now

/-- Constructor call `ProbeStatus()` with no arguments, at wall-clock time
`t`: `_now` is captured, `__status` and `__private` default to None. -/
def ProbeStatus.construct (t : Int) : ProbeStatus :=
  { now := t, status := none, info := none }

/-- The status-producing tail of `ProbePID_SSH.main` (the one probe bundled
with the core): each call constructs a fresh `ProbeStatus()` at the current
time `t` and then mutates that new instance with `set_status` /
`set_private_info` according to the retrieved pid, never touching the status
returned by an earlier cycle.  The interpolated process name and pid of the
source's messages are elided (message text is not a compatibility
surface). -/
def probePidSshMainStatus (t savedPid currentPid : Int) : ProbeStatus :=
  if currentPid = -10 then
    ProbeStatus.set_private_info
      (ProbeStatus.set_status (ProbeStatus.construct t) 10)
      (some "ERROR with the ssh command")
  else if currentPid = -1 then
    ProbeStatus.set_private_info
      (ProbeStatus.set_status (ProbeStatus.construct t) (-2))
      (some "process is not running anymore")
  else if savedPid ≠ currentPid then
    ProbeStatus.set_private_info
      (ProbeStatus.set_status (ProbeStatus.construct t) (-1))
      (some "process PID has changed")
  else
    ProbeStatus.set_private_info
      (ProbeStatus.set_status (ProbeStatus.construct t) 0)
      none

/-! ## BlockingProbeUser worker-side events and loops

The worker thread of a `BlockingProbeUser` owns five `threading.Event` flags:
`_stop_event` (cooperative cancellation, inherited from `ProbeUser`),
`_arm_event` (data-ready), `_armed_event`, `_blocking_event`
(blocking-release) and `_continue_event` (error-release).  The controller
sets flags asynchronously; each polling iteration of a worker wait loop is
modelled as: deliver the signals of one `EnvSig`, then perform the checks of
that iteration in source order. -/

/-- The event flags of one `BlockingProbeUser`, plus the probe's last stored
status code (`self._probe.status`, written only by the worker). -/
structure BPUState where
  stopEv : Bool
  armEv : Bool
  armedEv : Bool
  blockingEv : Bool
  contEv : Bool
  probeStatus : Int
deriving DecidableEq

/-- Method `ProbeUser._go_on()`: `not self._stop_event.is_set()`. -/
def goOn (s : BPUState) : Bool := !s.stopEv

/-- External signal deliveries that become visible to the worker at its next
flag check: `stop()` sets the stop event, `notify_data_ready()` the arm
event, `notify_blocking()` the blocking event, `notify_error()` the continue
event.  (`BlockingProbeUser.stop()` performs both `setStop` and `setCont`.) -/
structure EnvSig where
  setStop : Bool
  setArm : Bool
  setBlocking : Bool
  setCont : Bool
deriving DecidableEq

/-- Deliver one batch of controller signals: `Event.set()` keeps an already
set flag set. The armed event is only ever set by the worker itself. -/
def applyEnv (e : EnvSig) (s : BPUState) : BPUState :=
  { s with
    stopEv := s.stopEv || e.setStop,
    armEv := s.armEv || e.setArm,
    blockingEv := s.blockingEv || e.setBlocking,
    contEv := s.contEv || e.setCont }

/-- Outcome of `BlockingProbeUser._wait_for_data_ready`. -/
inductive WdrOut
  | ready
  | cancelled
  | stillWaiting
deriving DecidableEq

/-- Method `BlockingProbeUser._wait_for_data_ready`: loop while the arm event
is clear; inside the loop, return False when cancellation is observed,
otherwise wait (1-second poll granularity).  On normal exit clear the arm
event and return True.  `stillWaiting` means the finite environment trace was
exhausted with the worker still parked in the loop. -/
def waitForDataReady : List EnvSig → BPUState → WdrOut × BPUState
  | [], s => (.stillWaiting, s)
  | e :: es, s =>
    if (applyEnv e s).armEv then
      (.ready, { applyEnv e s with armEv := false })
    else if !(goOn (applyEnv e s)) then
      (.cancelled, applyEnv e s)
    else
      waitForDataReady es (applyEnv e s)

/-- Outcome of `BlockingProbeUser._wait_for_blocking`. -/
inductive WfbOut
  | released
  | aborted
  | stillWaiting
deriving DecidableEq

/-- Method `BlockingProbeUser._wait_for_blocking`: loop while the blocking
event is clear; inside the loop, when the continue (error-release) event is
set or cancellation is observed, clear the continue event and break with
False; otherwise wait (1-second poll).  After the loop the blocking event is
always cleared.  Returns True only when the blocking event was observed set
at a loop head. -/
def waitForBlocking : List EnvSig → BPUState → WfbOut × BPUState
  | [], s => (.stillWaiting, s)
  | e :: es, s =>
    if (applyEnv e s).blockingEv then
      (.released, { applyEnv e s with blockingEv := false })
    else if (applyEnv e s).contEv || !(goOn (applyEnv e s)) then
      (.aborted, { applyEnv e s with contEv := false, blockingEv := false })
    else
      waitForBlocking es (applyEnv e s)

/-- How one iteration of the `BlockingProbeUser._run` while-loop ends. -/
inductive CycleOut
  | backToLoopHead
  | blockedInDataReady
  | armExc
  | abortRelease
  | blockedInRelease
  | mainExc
  | mainDone
deriving DecidableEq

/-- Result of one `_run` loop iteration: how it ended, the event state left
behind, and whether `probe.main` was invoked during the iteration. -/
structure CycleRes where
  out : CycleOut
  st : BPUState
  mainCalled : Bool
deriving DecidableEq

/-- Environment of one `_run` loop iteration: the signal trace seen while
waiting for data-ready, whether `probe.arm` raises, the signal trace seen
while waiting for the release, and the outcome of `probe.main` (an
`Except.error` models main raising). -/
structure CycleEnv where
  dataReady : List EnvSig
  armRaises : Bool
  release : List EnvSig
  mainResult : Except Unit Int

/-- Tail of a `_run` loop iteration from the release wait on: source lines
`if not self._wait_for_blocking(): continue` followed by the guarded call
`self._probe.status = self._probe.main(...)` whose handler returns from the
worker. -/
def releasePhase (es : List EnvSig) (mainResult : Except Unit Int) (s : BPUState) : CycleRes :=
  match waitForBlocking es s with
  | (.stillWaiting, s1) => ⟨.blockedInRelease, s1, false⟩
  | (.aborted, s1) => ⟨.abortRelease, s1, false⟩
  | (.released, s1) =>
    match mainResult with
    | .error _ => ⟨.mainExc, s1, true⟩
    | .ok c => ⟨.mainDone, { s1 with probeStatus := c }, true⟩

/-- One iteration of the `BlockingProbeUser._run` while-loop, entered with
`_go_on()` true: wait for data-ready (a False return restarts the loop); call
`probe.arm`, whose handler signals armed and returns from the worker on an
exception; signal armed; then the release phase. -/
def runCycle (env : CycleEnv) (s : BPUState) : CycleRes :=
  match waitForDataReady env.dataReady s with
  | (.stillWaiting, s1) => ⟨.blockedInDataReady, s1, false⟩
  | (.cancelled, s1) => ⟨.backToLoopHead, s1, false⟩
  | (.ready, s1) =>
    if env.armRaises then
      ⟨.armExc, { s1 with armedEv := true }, false⟩
    else
      releasePhase env.release env.mainResult { s1 with armedEv := true }

/-- How a worker run ends, as far as the `probe.stop` hook is concerned. -/
inductive RunEnd
  | stopHookRan
  | exitNoStopHook
  | stillRunning
deriving DecidableEq

/-- The `BlockingProbeUser._run` while-loop over a finite list of
per-iteration environments: the loop head re-checks `_go_on()`; leaving the
loop through that check reaches the guarded `probe._stop` call
(`stopHookRan`), while an exception in `arm` or `main` returns from the
worker without it (`exitNoStopHook`). -/
def bpuRun : List CycleEnv → BPUState → RunEnd × BPUState
  | [], s =>
    if goOn s then (.stillRunning, s) else (.stopHookRan, s)
  | env :: rest, s =>
    if goOn s then
      match runCycle env s with
      | ⟨.armExc, st, _⟩ => (.exitNoStopHook, st)
      | ⟨.mainExc, st, _⟩ => (.exitNoStopHook, st)
      | ⟨.blockedInDataReady, st, _⟩ => (.stillRunning, st)
      | ⟨.blockedInRelease, st, _⟩ => (.stillRunning, st)
      | ⟨.backToLoopHead, st, _⟩ => bpuRun rest st
      | ⟨.abortRelease, st, _⟩ => bpuRun rest st
      | ⟨.mainDone, st, _⟩ => bpuRun rest st
    else (.stopHookRan, s)

/-! ## Plain ProbeUser worker loop

`ProbeUser._run`: call `probe._start` (an exception there returns from the
worker immediately); then, while `_go_on()`, call `probe.main` (an exception
there returns from the worker immediately) and sleep interruptibly for
`probe.delay`; on loop exit call `probe._stop`.

Cancellation (`stop()` setting the stop event) is modelled by the number
`cancelFuel` of loop-head checks that still see `_go_on()` true: the stop
event, once set, stays set for the rest of the run, so within one run
`_go_on()` is true for a prefix of the checks and false afterwards.  The
outcome of the k-th `probe.main` call is `mains k`; the interruptible sleep
does not affect which hooks run and is absorbed into the trace. -/

/-- Outcome of a plain worker run with respect to the `probe._stop` hook. -/
inductive PlainEnd
  | stopHookRan
  | exitNoStopHook
deriving DecidableEq

/-- The while-loop of `ProbeUser._run`, with `k` the index of the next
`probe.main` call. -/
def plainLoop (mains : Nat → Except Unit Int) : Nat → Nat → PlainEnd
  | 0, _ => .stopHookRan
  | fuel + 1, k =>
    match mains k with
    | .error _ => .exitNoStopHook
    | .ok _ => plainLoop mains fuel (k + 1)

/-- Method `ProbeUser._run`: start hook, poll loop, stop hook. -/
def ProbeUser.runWorker (startRaises : Bool) (cancelFuel : Nat)
    (mains : Nat → Except Unit Int) : PlainEnd :=
  if startRaises then .exitNoStopHook else plainLoop mains cancelFuel 0

/-! ## BlockingProbeUser.wait_until_armed (controller side)

Source:
```
timeout = datetime.timedelta(seconds=ProbeUser.timeout)
start_date = datetime.datetime.now()
while not self._armed_event.is_set():
    if timeout.total_seconds() <= 0.0:
        self.stop()
    if not self.is_alive() or not self._go_on():
        break
    self._armed_event.wait(1)
    timeout -= start_date - datetime.datetime.now()
self._armed_event.clear()
```
Each loop iteration observes the armed event, the worker's liveness, the
stop flag (before any `stop()` of the same iteration) and the wall-clock
value read at the `timeout` update.  Calling `stop()` sets the stop event,
so the `_go_on()` check of the same iteration then breaks. -/

/-- One polling iteration of `wait_until_armed` as observed by the
controller. -/
structure WuaObs where
  armed : Bool
  alive : Bool
  stopClear : Bool
  now : Int
deriving DecidableEq

/-- How `wait_until_armed` returned. -/
inductive WuaExit
  | armedSeen
  | deadOrCancelled
  | stillWaiting
deriving DecidableEq

/-- The `wait_until_armed` loop.  Second component of the result: whether
`self.stop()` was called by the budget-exhaustion branch at any iteration.
The update `t - (start - o.now)` is the literal source expression
`timeout -= start_date - datetime.datetime.now()`. -/
def wuaLoop (start : Int) : List WuaObs → Int → Bool → WuaExit × Bool
  | [], _, stopCalled => (.stillWaiting, stopCalled)
  | o :: rest, t, stopCalled =>
    if o.armed then
      (.armedSeen, stopCalled)
    else if !o.alive || !o.stopClear || decide (t ≤ 0) then
      (.deadOrCancelled, stopCalled || decide (t ≤ 0))
    else
      wuaLoop start rest (t - (start - o.now)) (stopCalled || decide (t ≤ 0))

/-- Method `BlockingProbeUser.wait_until_armed`, entered with the 10-second
class budget. -/
def BlockingProbeUser.wait_until_armed (start : Int) (obs : List WuaObs) : WuaExit × Bool :=
  wuaLoop start obs probeUserTimeout false

/-! ## Monitor

The registry maps probe type names to probe-user actors.  A registered actor
is summarised by the controller-visible pieces of its state: whether it is
the blocking variant, its `after_feedback_retrieval` mode, thread liveness,
the latest stored status code, and its event flags. -/

/-- Controller-side summary of one registered `ProbeUser` /
`BlockingProbeUser`. -/
structure PUModel where
  blocking : Bool
  after_feedback_retrieval : Bool
  alive : Bool
  statusCode : Int
  stopEvSet : Bool
  contEvSet : Bool
  armEvSet : Bool
  armedEvSet : Bool
deriving DecidableEq

/-- Methods `ProbeUser.stop` / `BlockingProbeUser.stop`: set the stop event;
the blocking override additionally calls `notify_error()`, setting the
continue event. -/
def puStop (pu : PUModel) : PUModel :=
  if pu.blocking then { pu with stopEvSet := true, contEvSet := true }
  else { pu with stopEvSet := true }

/-- Method `ProbeUser.start`: `_clear()` resets every event, then a fresh
worker thread is spawned. -/
def puStart (pu : PUModel) : PUModel :=
  { pu with alive := true, stopEvSet := false, contEvSet := false,
            armEvSet := false, armedEvSet := false }

/-- The `Monitor` object: the `probe_users` registry (keyed by probe type
name), the cached aggregate `_target_status`, and the private hook switch
`__enable`. -/
structure Monitor where
  probe_users : List (String × PUModel)
  target_status_cache : Option Int
  enable : Bool
deriving DecidableEq

/-- Operational errors pushed to the framework error sink
(`self.fmk_ops.set_error`), plus the `notify_stop` bookkeeping mark. -/
inductive ProbeEvent
  | stopped (name : String)
  | stuck (name : String)
  | unknown (name : String)
deriving DecidableEq

/-- Python private-name mangling: the attribute expression `probe.__class_`
written inside `class Monitor` (note the single trailing underscore, a typo
for `__class__`) is compiled as `probe._Monitor__class_`. -/
def mangledClassAttr : String := "_Monitor__class_"

/-- Attribute lookup on a probe instance as used by `add_probe`: the real
attribute `__class__` yields the probe's type (whose `__name__` is the
registry key); any other dunder-style name raises AttributeError. -/
def probeGetattr (typeName attr : String) : Except PyExc String :=
  if attr = "__class__" then .ok typeName else .error .attributeError

/-- A fresh actor as built by `add_probe`: `ProbeUser.__init__` /
`BlockingProbeUser.__init__` create the events cleared and no thread; the
probe's initial status is `ProbeStatus(0)`. -/
def newPUModel (blocking after_feedback_retrieval : Bool) : PUModel :=
  { blocking := blocking, after_feedback_retrieval := after_feedback_retrieval,
    alive := false, statusCode := 0, stopEvSet := false, contEvSet := false,
    armEvSet := false, armedEvSet := false }

/-- Method `Monitor.add_probe(probe, blocking, after_feedback_retrieval)`.
On a duplicate type name the source executes
`raise AlreadyExistingProbeError(probe.__class_.__name__)`: evaluating the
argument looks up the mangled attribute first, so the exception that actually
propagates comes from `probeGetattr`.  Returns the raised exception (if any)
together with the registry state afterwards. -/
def Monitor.add_probe (m : Monitor) (typeName : String)
    (blocking after_feedback_retrieval : Bool) : Option PyExc × Monitor :=
  if (m.probe_users.lookup typeName).isSome then
    match probeGetattr typeName mangledClassAttr with
    | .error e => (some e, m)
    | .ok _ => (some .alreadyExistingProbe, m)
  else
    (none, { m with probe_users :=
      m.probe_users ++ [(typeName, newPUModel blocking after_feedback_retrieval)] })

/-- Parameters of `def join(self, timeout)` in class `ProbeUser`: one
required positional parameter and no default value. -/
def joinRequiredParams : Nat := 1

/-- Body of `ProbeUser.join`: the worker thread is joined for
`ProbeUser.timeout if timeout is None else timeout` seconds. -/
def joinEffectiveTimeout (timeout : Option Int) : Int :=
  match timeout with
  | none => probeUserTimeout
  | some t => t

/-- A Python-level call of `probe_user.join(...)` with the positional
arguments supplied at the call site.  Supplying fewer arguments than
`joinRequiredParams` raises TypeError before the body runs. -/
def callJoin (args : List (Option Int)) : Except PyExc Int :=
  match args with
  | [] => .error .typeError
  | t :: _ => .ok (joinEffectiveTimeout t)

/-- Method `Monitor.configure_probe(probe, *args)`: the registry lookup is
wrapped in `try ... except KeyError: return False`; on success
`probe.configure` runs and True is returned. -/
def Monitor.configure_probe (m : Monitor) (name : String) : Bool :=
  match m.probe_users.lookup name with
  | some _ => true
  | none => false

/-- Method `Monitor.start_probe(probe)`: when the name is registered, the
actor is started under a bare `except: return False` (an already-alive actor
makes `ProbeUser.start` raise RuntimeError); when the name is *not*
registered the function falls through to `return True`. -/
def Monitor.start_probe (m : Monitor) (name : String) : Bool × Monitor :=
  match m.probe_users.lookup name with
  | some pu =>
    if pu.alive then (false, m)
    else
      (true, { m with probe_users := m.probe_users.map fun p =>
        if p.1 = name then (p.1, puStart p.2) else p })
  | none => (true, m)

/-- Registry update applying one probe-user method to the actor registered
under `name`. -/
def Monitor.updatePU (m : Monitor) (name : String) (f : PUModel → PUModel) : Monitor :=
  { m with probe_users := m.probe_users.map fun p =>
      if p.1 = name then (p.1, f p.2) else p }

/-- Method `ProbeUser.notify_stop`: the Monitor clears the stop event after
observing that the worker terminated, making the actor restart-ready. -/
def puNotifyStop (pu : PUModel) : PUModel :=
  { pu with stopEvSet := false }

/-- Method `Monitor.stop_probe(probe)`: for a registered name the source runs
`stop()` and then `probe_user.join()` — a call with zero positional
arguments, although `join` declares a required `timeout` parameter, so the
call raises TypeError after the stop request already took effect; the code
behind it (mark stopped or report stuck) is kept for fidelity but is
unreachable.  An unknown name is reported to the error sink with code
CommandError. -/
def Monitor.stop_probe (m : Monitor) (name : String) :
    Option PyExc × Monitor × List ProbeEvent :=
  match m.probe_users.lookup name with
  | some pu =>
    match callJoin [] with
    | .error e => (some e, m.updatePU name puStop, [])
    | .ok _ =>
      if pu.alive then
        (none, m.updatePU name puStop, [.stuck name])
      else
        (none, (m.updatePU name puStop).updatePU name puNotifyStop, [.stopped name])
  | none => (none, m, [.unknown name])

/-- Method `Monitor.get_probe_status(probe)`: a bare dictionary access
`self.probe_users[...]`, so an unknown name raises KeyError. -/
def Monitor.get_probe_status (m : Monitor) (name : String) : Except PyExc Int :=
  match m.probe_users.lookup name with
  | some pu => .ok pu.statusCode
  | none => .error .keyError

/-- Method `Monitor.is_probe_launched(probe)`: a bare dictionary access, so
an unknown name raises KeyError. -/
def Monitor.is_probe_launched (m : Monitor) (name : String) : Except PyExc Bool :=
  match m.probe_users.lookup name with
  | some pu => .ok pu.alive
  | none => .error .keyError

/-- One observed step of the `stop_all_probes` join loop: the wall-clock
value read at this actor's `timeout` update and the actor's liveness after
its join returned. -/
structure StopAllObs where
  now : Int
  aliveAfterJoin : Bool
deriving DecidableEq

/-- The sequential join loop of `Monitor.stop_all_probes`.  For each actor,
the source first runs `timeout -= start_date - datetime.datetime.now()` and
then `probe_user.join(timeout.total_seconds())`; the first result component
records the timeout each join receives, the second the per-actor outcome
(`notify_stop` or a stuck report). -/
def stopAllJoinLoop (start : Int) :
    List (String × PUModel) → List StopAllObs → Int →
    List (String × Int) × List ProbeEvent
  | [], _, _ => ([], [])
  | _ :: _, [], _ => ([], [])
  | p :: pus, o :: os, t =>
    ((p.1, t - (start - o.now)) ::
        (stopAllJoinLoop start pus os (t - (start - o.now))).1,
     (if o.aliveAfterJoin then ProbeEvent.stuck p.1 else ProbeEvent.stopped p.1) ::
        (stopAllJoinLoop start pus os (t - (start - o.now))).2)

/-- Method `Monitor.stop_all_probes`: first request cancellation of every
actor (`probe_user.stop()`), then join them sequentially starting from the
10-second class budget.  Result: registry state after the stop requests, the
timeout handed to each join, and the per-actor outcomes. -/
def Monitor.stop_all_probes (m : Monitor) (start : Int) (obs : List StopAllObs) :
    Monitor × List (String × Int) × List ProbeEvent :=
  ({ m with probe_users := m.probe_users.map fun p => (p.1, puStop p.2) },
   (stopAllJoinLoop start (m.probe_users.map fun p => (p.1, puStop p.2)) obs
      probeUserTimeout).1,
   (stopAllJoinLoop start (m.probe_users.map fun p => (p.1, puStop p.2)) obs
      probeUserTimeout).2)

/-- The per-entry test of the `target_status` aggregation loop: the actor's
worker is alive (`probe_user.is_alive()`) and the latest stored status code
(`probe_user.get_probe_status().get_status()`) is negative. -/
def liveNegative (p : String × PUModel) : Bool :=
  p.2.alive && decide (p.2.statusCode < 0)

/-- The aggregation loop of the `Monitor.target_status` property: scan the
registry; the first live actor whose latest status code is negative sets the
aggregate to -1 and breaks; the for-else sets it to 1 when no break
occurred. -/
def targetStatusLoop : List (String × PUModel) → Int
  | [] => 1
  | p :: rest =>
    if liveNegative p then -1 else targetStatusLoop rest

/-- Property `Monitor.target_status`: when `_target_status` is None, run the
aggregation loop and cache the result; in all cases return the cached
value. -/
def Monitor.target_status (m : Monitor) : Int × Monitor :=
  match m.target_status_cache with
  | some v => (v, m)
  | none =>
    (targetStatusLoop m.probe_users,
     { m with target_status_cache := some (targetStatusLoop m.probe_users) })

/-- Method `Monitor.do_before_sending_data`: a no-op when hooks are disabled;
otherwise reset the cached target status, call `notify_data_ready()` on every
blocking actor (setting its arm event) and then `wait_until_armed()` on each,
which on the state summarised here always ends by clearing that actor's
armed event. -/
def Monitor.do_before_sending_data (m : Monitor) : Monitor :=
  if !m.enable then m
  else
    { m with
      target_status_cache := none,
      probe_users := m.probe_users.map fun p =>
        if p.2.blocking then
          (p.1, { p.2 with armEvSet := true, armedEvSet := false })
        else p }

/-- Method `Monitor.do_on_error`: a no-op when hooks are disabled; otherwise
call `notify_error()` on every blocking actor, setting its continue
(error-release) event. -/
def Monitor.do_on_error (m : Monitor) : Monitor :=
  if !m.enable then m
  else
    { m with probe_users := m.probe_users.map fun p =>
        if p.2.blocking then (p.1, { p.2 with contEvSet := true }) else p }

/-! ## Concrete registry entries, monitors and traces used as test inputs -/

/-- Registry key of a sample probe type. -/
def probeNameA : String := "A"

/-- Registry key of a second sample probe type. -/
def probeNameB : String := "B"

/-- Registry key of a sample probe type. -/
def probeNameP : String := "P"

/-- A probe type name that is never registered. -/
def probeNameUnknown : String := "Foo"

/-- A plain actor whose worker is alive and whose latest status code is
negative. -/
def puLiveNegative : PUModel :=
  { blocking := false, after_feedback_retrieval := false, alive := true,
    statusCode := -5, stopEvSet := false, contEvSet := false,
    armEvSet := false, armedEvSet := false }

/-- A monitor with hooks disabled, a stale cached target status of +1, and a
live probe whose latest code is negative. -/
def mStaleCache : Monitor :=
  { probe_users := [(probeNameP, puLiveNegative)],
    target_status_cache := some 1, enable := false }

/-- A monitor with hooks enabled and no cached target status. -/
def mFresh : Monitor :=
  { probe_users := [(probeNameP, puLiveNegative)],
    target_status_cache := none, enable := true }

/-- A monitor with an empty registry. -/
def mEmptyRegistry : Monitor :=
  { probe_users := [], target_status_cache := none, enable := true }

/-- A started plain actor. -/
def puRegistered : PUModel := puStart (newPUModel false false)

/-- A monitor with one registered, started probe named P. -/
def mOneProbe : Monitor :=
  { probe_users := [(probeNameP, puRegistered)],
    target_status_cache := none, enable := true }

/-- A monitor with a plain probe A and a blocking probe B registered. -/
def mTwoProbes : Monitor :=
  { probe_users := [(probeNameA, newPUModel false false),
                    (probeNameB, newPUModel true false)],
    target_status_cache := none, enable := true }

/-- Shutdown-join trace for `mTwoProbes`: joining A finishes 5 seconds after
the loop started; both workers have exited when their join returns. -/
def obsTwoProbes : List StopAllObs := [⟨0, false⟩, ⟨5, false⟩]

/-- A wait_until_armed trace: the probe stays alive, is never armed and is
never cancelled while 5, then 12, then 20 seconds elapse since the wait
started. -/
def wuaTraceNeverArmed : List WuaObs :=
  [⟨false, true, true, 5⟩, ⟨false, true, true, 12⟩, ⟨false, true, true, 20⟩]

/-- Worker event state with every flag clear. -/
def sIdle : BPUState :=
  { stopEv := false, armEv := false, armedEv := false, blockingEv := false,
    contEv := false, probeStatus := 0 }

/-- Worker event state as it is on entry of the release phase: armed was just
signalled, everything else clear. -/
def sReleaseWait : BPUState :=
  { stopEv := false, armEv := false, armedEv := true, blockingEv := false,
    contEv := false, probeStatus := 0 }

/-- Controller delivery of `notify_data_ready()` alone. -/
def sigDataReady : EnvSig :=
  { setStop := false, setArm := true, setBlocking := false, setCont := false }

/-- Controller delivery of `notify_blocking()` alone. -/
def sigBlockingOnly : EnvSig :=
  { setStop := false, setArm := false, setBlocking := true, setCont := false }

/-- Controller delivery of `notify_error()` alone. -/
def sigErrorOnly : EnvSig :=
  { setStop := false, setArm := false, setBlocking := false, setCont := true }

/-- Controller deliveries of `notify_blocking()` and `notify_error()` landing
in the same polling window of the worker. -/
def sigBlockingAndError : EnvSig :=
  { setStop := false, setArm := false, setBlocking := true, setCont := true }

/-- Cycle environment in which the data-ready signal arrives and `probe.arm`
raises. -/
def envArmRaises : CycleEnv :=
  { dataReady := [sigDataReady], armRaises := true, release := [],
    mainResult := Except.ok 0 }

/-- Cycle environment of a released cycle whose `probe.main` raises. -/
def envMainRaises : CycleEnv :=
  { dataReady := [sigDataReady], armRaises := false,
    release := [sigBlockingOnly], mainResult := Except.error () }

/-- The value captured at construction of a sample `ProbeStatus(0)`. -/
def psInitial : ProbeStatus := { now := 0, status := some 0, info := none }

/-! ## Helper lemmas -/

/-- Both branches of `stop()` set the stop event. -/
theorem puStop_stopEvSet (pu : PUModel) : (puStop pu).stopEvSet = true := by
  unfold puStop
  split <;> rfl

/-- Every branch of the SSH probe's main returns a status whose timestamp is
the one captured by this call's fresh `ProbeStatus()` construction. -/
theorem probePidSshMainStatus_timestamp (t savedPid currentPid : Int) :
    ProbeStatus.get_timestamp (probePidSshMainStatus t savedPid currentPid) = t := by
  unfold probePidSshMainStatus
  split_ifs <;> rfl

/-- The break-at-first-negative aggregation loop computes the same value as
the any-live-negative predicate over the whole registry. -/
theorem targetStatusLoop_eq_any (l : List (String × PUModel)) :
    targetStatusLoop l = (if l.any liveNegative then -1 else 1) := by
  induction l with
  | nil => simp [targetStatusLoop]
  | cons p rest ih =>
    rw [targetStatusLoop, List.any_cons]
    cases hp : liveNegative p
    · rw [Bool.false_or, if_neg (by decide), ih]
    · rw [Bool.true_or]
      simp

/-- Reading `target_status` leaves the cache holding the returned value. -/
theorem target_status_cache_some (m : Monitor) :
    (Monitor.target_status m).2.target_status_cache =
      some (Monitor.target_status m).1 := by
  cases h : m.target_status_cache <;> simp [Monitor.target_status, h]

/-- A read with a populated cache returns the cached value. -/
theorem target_status_read_cached (m : Monitor) (v : Int)
    (h : m.target_status_cache = some v) : (Monitor.target_status m).1 = v := by
  simp [Monitor.target_status, h]

/-- The attribute name actually looked up by `add_probe`'s raise expression
does not exist on probe objects. -/
theorem probeGetattr_typo (tn : String) :
    probeGetattr tn mangledClassAttr = Except.error PyExc.attributeError := by
  have h : ¬(mangledClassAttr = "__class__") := by decide
  simp [probeGetattr, h]

/-- Under a monotone wall clock and a positive remaining budget, the
`wait_until_armed` loop never reaches the budget-exhaustion branch: the
update `timeout -= start_date - now()` can only increase the budget. -/
theorem wuaLoop_stopCalled_eq (start : Int) :
    ∀ (obs : List WuaObs) (t : Int) (sc : Bool),
      (∀ o ∈ obs, start ≤ o.now) → 0 < t → (wuaLoop start obs t sc).2 = sc := by
  intro obs
  induction obs with
  | nil => intro t sc hm ht; rfl
  | cons o rest ih =>
    intro t sc hm ht
    have hno : ¬(t ≤ 0) := by omega
    by_cases ha : o.armed
    · simp [wuaLoop, ha]
    · by_cases hb : (!o.alive || !o.stopClear) = true
      · simp [wuaLoop, ha, hb, hno]
      · have h1 : start ≤ o.now := hm o (List.mem_cons_self o rest)
        have h2 : 0 < t - (start - o.now) := by omega
        simp only [wuaLoop, ha, hb, hno, if_false, Bool.false_or,
          decide_eq_false hno, Bool.or_false, if_true]
        simp [ha, hb, decide_eq_false hno]
        exact ih (t - (start - o.now)) sc
          (fun x hx => hm x (List.mem_cons_of_mem o hx)) h2

/-- Under a monotone wall clock, every join of the `stop_all_probes`
shutdown loop receives at least the budget the loop started with: the update
`timeout -= start_date - now()` can only increase the remaining budget. -/
theorem stopAllJoinLoop_timeout_ge (start : Int) :
    ∀ (pus : List (String × PUModel)) (obs : List StopAllObs) (t : Int),
      (∀ o ∈ obs, start ≤ o.now) →
      ∀ x ∈ (stopAllJoinLoop start pus obs t).1, t ≤ x.2 := by
  intro pus
  induction pus with
  | nil => intro obs t hm x hx; simp [stopAllJoinLoop] at hx
  | cons p pus ih =>
    intro obs t hm x hx
    cases obs with
    | nil => simp [stopAllJoinLoop] at hx
    | cons o os =>
      have h1 : start ≤ o.now := hm o (List.mem_cons_self o os)
      rw [stopAllJoinLoop] at hx
      simp only [List.mem_cons] at hx
      rcases hx with h | h
      · subst h; simp; omega
      · have h2 := ih os (t - (start - o.now))
          (fun y hy => hm y (List.mem_cons_of_mem o hy)) x h
        omega

/-- A release wait that ends through the abort branch leaves the continue
(error-release) event cleared. -/
theorem waitForBlocking_aborted_contEv :
    ∀ (es : List EnvSig) (s s1 : BPUState),
      waitForBlocking es s = (WfbOut.aborted, s1) → s1.contEv = false := by
  intro es
  induction es with
  | nil => intro s s1 h; simp [waitForBlocking] at h
  | cons e es ih =>
    intro s s1 h
    rw [waitForBlocking] at h
    by_cases hb : (applyEnv e s).blockingEv
    · simp [hb] at h
    · by_cases hc : ((applyEnv e s).contEv || !(goOn (applyEnv e s))) = true
      · simp [hb, hc] at h
        subst h
        rfl
      · simp [hb, hc] at h
        exact ih _ _ h

/-- With the continue and stop events clear and no further error-release or
cancellation deliveries, a release wait cannot end through the abort
branch. -/
theorem waitForBlocking_no_pending_abort :
    ∀ (es : List EnvSig) (s : BPUState),
      s.contEv = false → s.stopEv = false →
      (∀ e ∈ es, e.setCont = false ∧ e.setStop = false) →
      (waitForBlocking es s).1 ≠ WfbOut.aborted := by
  intro es
  induction es with
  | nil => intro s h1 h2 h3; simp [waitForBlocking]
  | cons e es ih =>
    intro s h1 h2 h3
    have he := h3 e (List.mem_cons_self e es)
    have hc : (applyEnv e s).contEv = false := by simp [applyEnv, h1, he.1]
    have hs : (applyEnv e s).stopEv = false := by simp [applyEnv, h2, he.2]
    rw [waitForBlocking]
    by_cases hb : (applyEnv e s).blockingEv
    · simp [hb]
    · have hcond : ((applyEnv e s).contEv || !(goOn (applyEnv e s))) = false := by
        simp [goOn, hc, hs]
      simp [hb, hcond]
      exact ih (applyEnv e s) hc hs (fun x hx => h3 x (List.mem_cons_of_mem e hx))

/-- A run of the plain worker loop that reaches the `probe._stop` hook had
no `probe.main` exception before cancellation. -/
theorem plainLoop_stopHook_all_ok (mains : Nat → Except Unit Int) :
    ∀ (fuel k : Nat), plainLoop mains fuel k = PlainEnd.stopHookRan →
      ∀ j < fuel, mains (k + j) ≠ Except.error () := by
  intro fuel
  induction fuel with
  | zero => intro k h j hj; omega
  | succ n ih =>
    intro k h j hj
    cases hm : mains k with
    | error e =>
      simp only [plainLoop, hm] at h
      exact PlainEnd.noConfusion h
    | ok v =>
      simp only [plainLoop, hm] at h
      cases j with
      | zero =>
        intro hcontra
        rw [Nat.add_zero, hm] at hcontra
        exact Except.noConfusion hcontra
      | succ j2 =>
        have h3 := ih (k + 1) h j2 (by omega)
        rw [show k + (j2 + 1) = k + 1 + j2 by omega]
        exact h3

/-- The blocking worker loop reaches the `probe._stop` hook only by observing
its cancellation flag at a loop head. -/
theorem bpuRun_stopHook_cancelled :
    ∀ (envs : List CycleEnv) (s sE : BPUState),
      bpuRun envs s = (RunEnd.stopHookRan, sE) → sE.stopEv = true := by
  intro envs
  induction envs with
  | nil =>
    intro s sE h
    rw [bpuRun] at h
    by_cases hg : goOn s = true
    · simp [hg] at h
    · rw [if_neg hg] at h
      simp only [Prod.mk.injEq] at h
      rw [← h.2]
      simp [goOn] at hg
      exact hg
  | cons env rest ih =>
    intro s sE h
    rw [bpuRun] at h
    by_cases hg : goOn s = true
    · rw [if_pos hg] at h
      rcases hr : runCycle env s with ⟨out, st, mc⟩
      rw [hr] at h
      cases out with
      | armExc => simp at h
      | mainExc => simp at h
      | blockedInDataReady => simp at h
      | blockedInRelease => simp at h
      | backToLoopHead => exact ih st sE h
      | abortRelease => exact ih st sE h
      | mainDone => exact ih st sE h
    · rw [if_neg hg] at h
      simp only [Prod.mk.injEq] at h
      rw [← h.2]
      simp [goOn] at hg
      exact hg

/-! ## Claim theorems -/

/-- C1: under a monotone wall clock, `wait_until_armed` never calls `stop()`:
the source's update `timeout -= start_date - datetime.datetime.now()` adds
the elapsed time to the remaining budget instead of subtracting it, so the
10-second budget is never exhausted and the exhaustion branch that would call
`stop()` on a probe that never arms is unreachable; the wait then runs
unbounded while the actor stays alive, unarmed and uncancelled. -/
theorem wait_until_armed_budget_unreachable (start : Int) (obs : List WuaObs)
    (hmono : ∀ o ∈ obs, start ≤ o.now) :
    (BlockingProbeUser.wait_until_armed start obs).2 = false := by
  unfold BlockingProbeUser.wait_until_armed
  exact wuaLoop_stopCalled_eq start obs probeUserTimeout false hmono (by decide)

/-- C1 (witness): a probe that stays alive and never arms while 20 seconds
elapse; the budget-exhaustion `stop()` is still never requested and the wait
is still pending after the 10-second budget has long passed. -/
theorem wait_until_armed_budget_unreachable_witness :
    (∀ o ∈ wuaTraceNeverArmed, (0 : Int) ≤ o.now) ∧
    (BlockingProbeUser.wait_until_armed 0 wuaTraceNeverArmed).2 = false ∧
    (BlockingProbeUser.wait_until_armed 0 wuaTraceNeverArmed).1 = WuaExit.stillWaiting :=
  ⟨by decide, wait_until_armed_budget_unreachable 0 wuaTraceNeverArmed (by decide),
   by decide⟩

/-- C2: `stop_all_probes` does request cancellation of every registered actor
before joining, but under a monotone wall clock the shared 10-second budget
never shrinks: the update `timeout -= start_date - datetime.datetime.now()`
adds the elapsed time, so every join in the sequential shutdown loop receives
at least the full initial budget and later actors get an ever larger one. -/
theorem stop_all_probes_budget_never_shrinks (m : Monitor) (start : Int)
    (obs : List StopAllObs) (hmono : ∀ o ∈ obs, start ≤ o.now) :
    (∀ q ∈ (Monitor.stop_all_probes m start obs).1.probe_users,
      q.2.stopEvSet = true) ∧
    (∀ x ∈ (Monitor.stop_all_probes m start obs).2.1, probeUserTimeout ≤ x.2) := by
  constructor
  · intro q hq
    simp only [Monitor.stop_all_probes, List.mem_map] at hq
    obtain ⟨p, hp, hq2⟩ := hq
    rw [← hq2]
    exact puStop_stopEvSet p.2
  · intro x hx
    exact stopAllJoinLoop_timeout_ge start _ obs probeUserTimeout hmono x hx

/-- C2 (witness): shutting down two probes where joining the first consumes
5 seconds: the second join is handed 15 seconds, not the 5 remaining from a
shared shrinking budget. -/
theorem stop_all_probes_budget_never_shrinks_witness :
    (∀ o ∈ obsTwoProbes, (0 : Int) ≤ o.now) ∧
    (∀ x ∈ (Monitor.stop_all_probes mTwoProbes 0 obsTwoProbes).2.1,
      probeUserTimeout ≤ x.2) ∧
    (Monitor.stop_all_probes mTwoProbes 0 obsTwoProbes).2.1 =
      [(probeNameA, 10), (probeNameB, 15)] :=
  ⟨by decide,
   (stop_all_probes_budget_never_shrinks mTwoProbes 0 obsTwoProbes (by decide)).2,
   by decide⟩

/-- C3 (counterexample): with hooks disabled, `do_before_sending_data`
returns immediately and does not reset the cached target status: on a monitor
with a stale cached +1 and a live probe whose latest code is negative, the
hook leaves the cache at +1 and a subsequent read still returns the stale +1,
although a fresh aggregation over the registry yields -1. -/
theorem target_status_reset_skipped_counterexample :
    (Monitor.do_before_sending_data mStaleCache).target_status_cache = some 1 ∧
    (Monitor.target_status (Monitor.do_before_sending_data mStaleCache)).1 = 1 ∧
    targetStatusLoop mStaleCache.probe_users = -1 := by decide

/-- C3 (amended): `target_status` is computed lazily (-1 when some live
actor's latest code is negative, +1 otherwise) and cached, so two consecutive
reads return the same value even if every probe entry changes in between; the
cache is reset by `do_before_sending_data` when hooks are enabled, while with
hooks disabled the hook is a no-op and the stale cache survives. -/
theorem target_status_lazy_cached_aggregate (m : Monitor) :
    (m.target_status_cache = none →
      (Monitor.target_status m).1 =
        (if m.probe_users.any liveNegative then -1 else 1)) ∧
    (∀ ps2 : List (String × PUModel),
      (Monitor.target_status
        { (Monitor.target_status m).2 with probe_users := ps2 }).1 =
      (Monitor.target_status m).1) ∧
    (m.enable = true →
      (Monitor.do_before_sending_data m).target_status_cache = none) ∧
    (m.enable = false → Monitor.do_before_sending_data m = m) := by
  refine ⟨?_, ?_, ?_, ?_⟩
  · intro h
    rw [show (Monitor.target_status m).1 = targetStatusLoop m.probe_users by
      simp [Monitor.target_status, h]]
    exact targetStatusLoop_eq_any m.probe_users
  · intro ps2
    exact target_status_read_cached _ _ (target_status_cache_some m)
  · intro h
    simp [Monitor.do_before_sending_data, h]
  · intro h
    simp [Monitor.do_before_sending_data, h]

/-- C3 (witness): on a fresh monitor with one live negative probe the read
computes -1; with hooks enabled the before-send hook clears the cache; on the
hooks-disabled monitor the hook changes nothing. -/
theorem target_status_lazy_cached_aggregate_witness :
    (Monitor.target_status mFresh).1 =
      (if mFresh.probe_users.any liveNegative then -1 else 1) ∧
    (Monitor.target_status
      { (Monitor.target_status mFresh).2 with probe_users := [] }).1 =
      (Monitor.target_status mFresh).1 ∧
    (Monitor.do_before_sending_data mFresh).target_status_cache = none ∧
    Monitor.do_before_sending_data mStaleCache = mStaleCache :=
  ⟨(target_status_lazy_cached_aggregate mFresh).1 rfl,
   (target_status_lazy_cached_aggregate mFresh).2.1 [],
   (target_status_lazy_cached_aggregate mFresh).2.2.1 rfl,
   (target_status_lazy_cached_aggregate mStaleCache).2.2.2 rfl⟩

/-- C4 (counterexample): on a monitor with an empty registry,
`get_probe_status` raises KeyError to the caller instead of reporting through
the error sink, and `start_probe` returns True — a success indicator — for
the unknown name. -/
theorem unknown_probe_counterexample :
    Monitor.get_probe_status mEmptyRegistry probeNameUnknown =
      Except.error PyExc.keyError ∧
    (Monitor.start_probe mEmptyRegistry probeNameUnknown).1 = true :=
  ⟨rfl, rfl⟩

/-- C4 (amended): Monitor operations addressed to an unregistered probe name
behave non-uniformly: `configure_probe` returns False and `stop_probe`
reports to the error sink without raising, but `get_probe_status` and
`is_probe_launched` raise KeyError to the caller, and `start_probe` returns
True without reporting anything. -/
theorem unknown_probe_behaviour (m : Monitor) (name : String)
    (h : m.probe_users.lookup name = none) :
    Monitor.configure_probe m name = false ∧
    (Monitor.start_probe m name).1 = true ∧
    Monitor.get_probe_status m name = Except.error PyExc.keyError ∧
    Monitor.is_probe_launched m name = Except.error PyExc.keyError ∧
    Monitor.stop_probe m name = (none, m, [ProbeEvent.unknown name]) := by
  refine ⟨?_, ?_, ?_, ?_, ?_⟩ <;>
    simp [Monitor.configure_probe, Monitor.start_probe, Monitor.get_probe_status,
      Monitor.is_probe_launched, Monitor.stop_probe, h]

/-- C4 (witness): the unknown-name behaviour evaluated on the empty
registry. -/
theorem unknown_probe_behaviour_witness :
    mEmptyRegistry.probe_users.lookup probeNameUnknown = none ∧
    Monitor.configure_probe mEmptyRegistry probeNameUnknown = false ∧
    Monitor.stop_probe mEmptyRegistry probeNameUnknown =
      (none, mEmptyRegistry, [ProbeEvent.unknown probeNameUnknown]) :=
  ⟨by decide,
   (unknown_probe_behaviour mEmptyRegistry probeNameUnknown (by decide)).1,
   (unknown_probe_behaviour mEmptyRegistry probeNameUnknown (by decide)).2.2.2.2⟩

/-- C5: for every registered probe name, `stop_probe` raises TypeError to the
caller: after the stop request, the source calls `probe_user.join()` with no
argument, but `ProbeUser.join` declares a required `timeout` parameter
without a default (even though its body handles `timeout is None`), so the
call itself raises before any joining, marking or reporting can happen. -/
theorem stop_probe_join_raises_typeerror (m : Monitor) (name : String)
    (pu : PUModel) (h : m.probe_users.lookup name = some pu) :
    (Monitor.stop_probe m name).1 = some PyExc.typeError := by
  simp [Monitor.stop_probe, h, callJoin]

/-- C5 (witness): stopping the registered, started probe P raises
TypeError. -/
theorem stop_probe_join_raises_typeerror_witness :
    mOneProbe.probe_users.lookup probeNameP = some puRegistered ∧
    (Monitor.stop_probe mOneProbe probeNameP).1 = some PyExc.typeError :=
  ⟨by decide,
   stop_probe_join_raises_typeerror mOneProbe probeNameP puRegistered (by decide)⟩

/-- C6: registering a probe whose type name is already present fails before
any thread is created and leaves the registry unchanged, but the exception
that propagates is an AttributeError, not the intended "already exists"
error: the raise expression reads `probe.__class_.__name__` — a typo for
`__class__`, name-mangled inside `class Monitor` to `_Monitor__class_` — so
evaluating the argument of `AlreadyExistingProbeError` raises first. -/
theorem add_probe_duplicate_attributeerror (m : Monitor) (name : String)
    (blocking afr : Bool) (h : (m.probe_users.lookup name).isSome = true) :
    Monitor.add_probe m name blocking afr = (some PyExc.attributeError, m) := by
  simp [Monitor.add_probe, h, probeGetattr_typo]

/-- C6 (witness): adding a probe named P to a monitor that already holds one
raises AttributeError and retains exactly the original registry. -/
theorem add_probe_duplicate_attributeerror_witness :
    (mOneProbe.probe_users.lookup probeNameP).isSome = true ∧
    Monitor.add_probe mOneProbe probeNameP false false =
      (some PyExc.attributeError, mOneProbe) ∧
    mOneProbe.probe_users = [(probeNameP, puRegistered)] :=
  ⟨by decide,
   add_probe_duplicate_attributeerror mOneProbe probeNameP false false (by decide),
   by decide⟩

/-- C7 (counterexample): the error-release signal is not consumed when the
blocking release lands in the same polling window: with both
`notify_blocking()` and `notify_error()` delivered while the actor waits in
the release phase, the wait exits through the release branch, the cycle
invokes `probe.main`, and the error-release flag stays set, poisoning a later
wait — refuting the claim that an error-release fired during the wait always
aborts the cycle and is consumed. -/
theorem error_release_race_counterexample :
    sigBlockingAndError.setCont = true ∧
    (releasePhase [sigBlockingAndError] (Except.ok 7) sReleaseWait).mainCalled = true ∧
    (releasePhase [sigBlockingAndError] (Except.ok 7) sReleaseWait).st.contEv = true := by
  decide

/-- C7 (amended): whenever the release-phase wait exits through the error
path (the error-release signal observed at a poll where the blocking release
is not set) and cancellation was not requested, the cycle aborts without
invoking `probe.main`, the loop head re-enters the await-data-ready phase,
and the error-release signal is consumed: it is cleared and cannot abort a
later wait unless fired again. -/
theorem error_release_observed_aborts_cycle (s s1 : BPUState) (es : List EnvSig)
    (mr : Except Unit Int)
    (h : waitForBlocking es s = (WfbOut.aborted, s1)) (hstop : s1.stopEv = false) :
    releasePhase es mr s = ⟨CycleOut.abortRelease, s1, false⟩ ∧
    s1.contEv = false ∧
    goOn s1 = true ∧
    (∀ es2, (∀ e ∈ es2, e.setCont = false ∧ e.setStop = false) →
      (waitForBlocking es2 s1).1 ≠ WfbOut.aborted) := by
  have hcont := waitForBlocking_aborted_contEv es s s1 h
  refine ⟨?_, hcont, ?_, ?_⟩
  · simp [releasePhase, h]
  · simp [goOn, hstop]
  · intro es2 h2
    exact waitForBlocking_no_pending_abort es2 s1 hcont hstop h2

/-- C7 (witness): an error-release delivered alone while the actor waits in
the release phase aborts the cycle without running main and leaves the
continue event clear. -/
theorem error_release_observed_aborts_cycle_witness :
    waitForBlocking [sigErrorOnly] sReleaseWait = (WfbOut.aborted, sReleaseWait) ∧
    sReleaseWait.stopEv = false ∧
    releasePhase [sigErrorOnly] (Except.ok 7) sReleaseWait =
      ⟨CycleOut.abortRelease, sReleaseWait, false⟩ ∧
    sReleaseWait.contEv = false :=
  ⟨by decide, by decide,
   (error_release_observed_aborts_cycle sReleaseWait sReleaseWait [sigErrorOnly]
      (Except.ok 7) (by decide) (by decide)).1,
   (error_release_observed_aborts_cycle sReleaseWait sReleaseWait [sigErrorOnly]
      (Except.ok 7) (by decide) (by decide)).2.1⟩

/-- C8: when `probe.arm` raises, the exception handler still signals the
armed event before the worker returns, and any `wait_until_armed` loop that
observes the armed flag at a loop head returns immediately, so the
controller's wait cannot deadlock on an arm failure. -/
theorem arm_exception_still_signals_armed (env : CycleEnv) (s s1 : BPUState)
    (hready : waitForDataReady env.dataReady s = (WdrOut.ready, s1))
    (harm : env.armRaises = true) :
    (runCycle env s).out = CycleOut.armExc ∧
    (runCycle env s).st.armedEv = true ∧
    (∀ (start t : Int) (rest : List WuaObs) (o : WuaObs) (sc : Bool),
      o.armed = true → wuaLoop start (o :: rest) t sc = (WuaExit.armedSeen, sc)) := by
  refine ⟨?_, ?_, ?_⟩
  · simp [runCycle, hready, harm]
  · simp [runCycle, hready, harm]
  · intro start t rest o sc ho
    simp [wuaLoop, ho]

/-- C8 (witness): a cycle whose arm hook raises leaves the armed event set,
and a wait that then observes the armed flag returns at once. -/
theorem arm_exception_still_signals_armed_witness :
    waitForDataReady envArmRaises.dataReady sIdle = (WdrOut.ready, sIdle) ∧
    (runCycle envArmRaises sIdle).out = CycleOut.armExc ∧
    (runCycle envArmRaises sIdle).st.armedEv = true ∧
    wuaLoop 0 [⟨true, true, true, 0⟩] probeUserTimeout false =
      (WuaExit.armedSeen, false) :=
  ⟨by decide,
   (arm_exception_still_signals_armed envArmRaises sIdle sIdle (by decide) rfl).1,
   (arm_exception_still_signals_armed envArmRaises sIdle sIdle (by decide) rfl).2.1,
   (arm_exception_still_signals_armed envArmRaises sIdle sIdle (by decide) rfl).2.2
     0 probeUserTimeout [] ⟨true, true, true, 0⟩ false rfl⟩

/-- C9 (counterexample): a `ProbeStatus` instance is not immutable after
construction: `set_status` changes the observable health code of an existing
instance (the example SSH probe's main uses exactly this mutator). -/
theorem probe_status_mutable_counterexample :
    ProbeStatus.get_status (ProbeStatus.set_status psInitial (-2)) = some (-2) ∧
    ProbeStatus.get_status psInitial = some 0 ∧
    ProbeStatus.set_status psInitial (-2) ≠ psInitial := by decide

/-- C9 (amended): the creation timestamp of a `ProbeStatus` is fixed at
construction — no operation changes it — and the status a probe cycle returns
is a freshly constructed instance: every branch of the SSH probe's main
builds a new `ProbeStatus()` carrying that call's construction time, so
cycles at distinct clock readings return distinct instances rather than the
old one mutated; but the health code and the diagnostic payload are mutable
after construction through `set_status` and `set_private_info`, each of which
changes exactly its own field. -/
theorem probe_status_mutators_spare_timestamp (ps : ProbeStatus) (c : Int)
    (pv : Option String) :
    ProbeStatus.get_timestamp (ProbeStatus.set_status ps c) =
      ProbeStatus.get_timestamp ps ∧
    ProbeStatus.get_timestamp (ProbeStatus.set_private_info ps pv) =
      ProbeStatus.get_timestamp ps ∧
    ProbeStatus.get_status (ProbeStatus.set_status ps c) = some c ∧
    ProbeStatus.get_private_info (ProbeStatus.set_private_info ps pv) = pv ∧
    ProbeStatus.get_private_info (ProbeStatus.set_status ps c) =
      ProbeStatus.get_private_info ps ∧
    ProbeStatus.get_status (ProbeStatus.set_private_info ps pv) =
      ProbeStatus.get_status ps ∧
    (∀ t savedPid currentPid : Int,
      ProbeStatus.get_timestamp (probePidSshMainStatus t savedPid currentPid) = t) ∧
    (∀ t1 t2 s1 c1 s2 c2 : Int, t1 ≠ t2 →
      probePidSshMainStatus t1 s1 c1 ≠ probePidSshMainStatus t2 s2 c2) := by
  refine ⟨rfl, rfl, rfl, rfl, rfl, rfl, probePidSshMainStatus_timestamp, ?_⟩
  intro t1 t2 s1 c1 s2 c2 hne heq
  have h1 := congrArg ProbeStatus.get_timestamp heq
  rw [probePidSshMainStatus_timestamp, probePidSshMainStatus_timestamp] at h1
  exact hne h1

/-- C9 (witness): concrete mutator and fresh-instance facts: the timestamp
survives a set_status, the SSH main's status at clock reading 0 carries
timestamp 0, and the instances returned by cycles at clock readings 0 and 1
are distinct objects. -/
theorem probe_status_mutators_spare_timestamp_witness :
    ProbeStatus.get_timestamp (ProbeStatus.set_status psInitial (-2)) =
      ProbeStatus.get_timestamp psInitial ∧
    ProbeStatus.get_timestamp (probePidSshMainStatus 0 7 7) = 0 ∧
    ((0 : Int) ≠ 1 ∧
      probePidSshMainStatus 0 7 7 ≠ probePidSshMainStatus 1 7 7) :=
  ⟨(probe_status_mutators_spare_timestamp psInitial (-2) none).1,
   (probe_status_mutators_spare_timestamp psInitial (-2) none).2.2.2.2.2.2.1 0 7 7,
   ⟨by decide,
    (probe_status_mutators_spare_timestamp psInitial (-2) none).2.2.2.2.2.2.2
      0 1 7 7 7 7 (by decide)⟩⟩

/-- C10: a `probe.main` exception makes the worker return without the
`probe.stop` hook, and the stop hook runs only when the loop exits through
cooperative cancellation: for the plain loop, reaching the stop hook is
impossible once some `main` call before the cancellation point raises, and a
run that reached the stop hook had only successful `main` calls; for the
blocking loop, reaching the stop hook implies the cancellation flag was
observed set, and a cycle whose `main` raises ends the run without the stop
hook. -/
theorem main_exception_skips_stop_hook :
    (∀ (cancelFuel k : Nat) (mains : Nat → Except Unit Int),
      k < cancelFuel → mains k = Except.error () →
      ProbeUser.runWorker false cancelFuel mains = PlainEnd.exitNoStopHook) ∧
    (∀ (cancelFuel : Nat) (mains : Nat → Except Unit Int),
      ProbeUser.runWorker false cancelFuel mains = PlainEnd.stopHookRan →
      ∀ k < cancelFuel, mains k ≠ Except.error ()) ∧
    (∀ (envs : List CycleEnv) (s sE : BPUState),
      bpuRun envs s = (RunEnd.stopHookRan, sE) → sE.stopEv = true) ∧
    (∀ (env : CycleEnv) (rest : List CycleEnv) (s : BPUState),
      goOn s = true → (runCycle env s).out = CycleOut.mainExc →
      bpuRun (env :: rest) s = (RunEnd.exitNoStopHook, (runCycle env s).st)) := by
  have hplain : ∀ (cancelFuel : Nat) (mains : Nat → Except Unit Int),
      ProbeUser.runWorker false cancelFuel mains = PlainEnd.stopHookRan →
      ∀ k < cancelFuel, mains k ≠ Except.error () := by
    intro cf mains h k hk
    have h2 : plainLoop mains cf 0 = PlainEnd.stopHookRan := by
      simpa [ProbeUser.runWorker] using h
    have h3 := plainLoop_stopHook_all_ok mains cf 0 h2 k hk
    simpa using h3
  refine ⟨?_, hplain, bpuRun_stopHook_cancelled, ?_⟩
  · intro cf k mains hk hm
    cases he : ProbeUser.runWorker false cf mains with
    | exitNoStopHook => rfl
    | stopHookRan => exact absurd hm (hplain cf mains he k hk)
  · intro env rest s hg ho
    rw [bpuRun, if_pos hg]
    rcases hr : runCycle env s with ⟨out, st, mc⟩
    rw [hr] at ho
    have ho2 : out = CycleOut.mainExc := ho
    subst ho2
    rfl

/-- C10 (witness): a blocking cycle whose main raises ends the run without
the stop hook, and a plain run whose second main call raises never reaches
the stop hook. -/
theorem main_exception_skips_stop_hook_witness :
    goOn sIdle = true ∧
    (runCycle envMainRaises sIdle).out = CycleOut.mainExc ∧
    bpuRun [envMainRaises] sIdle =
      (RunEnd.exitNoStopHook, (runCycle envMainRaises sIdle).st) ∧
    ProbeUser.runWorker false 3
      (fun k => if k = 1 then Except.error () else Except.ok 0) =
      PlainEnd.exitNoStopHook :=
  ⟨rfl, rfl,
   main_exception_skips_stop_hook.2.2.2 envMainRaises [] sIdle rfl rfl,
   main_exception_skips_stop_hook.1 3 1
     (fun k => if k = 1 then Except.error () else Except.ok 0) (by omega) rfl⟩

end FuddlyMonitor
